import Mathlib

/-!
Shallow embedding of the data-derivation pipeline of `fitness_processing.py`:
unit parsers, the dtype normalizer `enforce_dtypes`, the heart-rate window
aggregator `find_hr`, the extractors `get_hrs` / `get_runs`, and the
day-keyed cache logic of `FitnessProcessor.__init__` / `check_cache`.

Machine floats are modelled by rationals; the floating "no data" markers
NaN / NaT of pandas are modelled by `Option.none`.  Python exceptions are
modelled with `Except`.
-/

/-- Calendar date, embedding `datetime.date`: year, month, day. -/
structure PyDate where
  year : Nat
  month : Nat
  day : Nat
deriving DecidableEq

/-- Time of day, embedding `datetime.time`: hour, minute, second
(the microsecond component is not carried by the exported data). -/
structure PyTime where
  hour : Nat
  minute : Nat
  second : Nat
deriving DecidableEq

/-- Full timestamp, embedding `datetime.datetime` / `pandas.Timestamp`,
as held by the `Time` column of `heart_rates`. -/
structure PyDateTime where
  date : PyDate
  tod : PyTime
deriving DecidableEq

/-- Strict comparison of times of day, lexicographic on
(hour, minute, second), exactly as Python compares `datetime.time` values. -/
def timeLtB (a b : PyTime) : Bool :=
  decide (a.hour < b.hour ∨ (a.hour = b.hour ∧
    (a.minute < b.minute ∨ (a.minute = b.minute ∧ a.second < b.second))))

/-- Strict comparison of calendar dates, lexicographic on (year, month, day). -/
def dateLtB (a b : PyDate) : Bool :=
  decide (a.year < b.year ∨ (a.year = b.year ∧
    (a.month < b.month ∨ (a.month = b.month ∧ a.day < b.day))))

/-- Non-strict comparison of timestamps: date first, then time of day. -/
def tsLeB (a b : PyDateTime) : Bool :=
  dateLtB a.date b.date ||
    (decide (a.date = b.date) && (timeLtB a.tod b.tod || decide (a.tod = b.tod)))

/-- Errors a Python run of the pipeline can raise: `KeyError`, `ValueError`,
`TypeError`, `IndexError` and `FileNotFoundError`. -/
inductive PyErr where
  | keyErr
  | valueErr
  | typeErr
  | indexErr
  | fileErr
deriving DecidableEq

/-- A dynamically typed Python scalar as passed to the unit parsers:
either a text value or a numeric one (floats modelled by rationals). -/
inductive PyVal where
  | str (s : String)
  | num (q : ℚ)
deriving DecidableEq

instance {ε α : Type} [DecidableEq ε] [DecidableEq α] : DecidableEq (Except ε α) :=
  fun a b =>
    match a, b with
    | .ok x, .ok y =>
      match decEq x y with
      | isTrue h => isTrue (congrArg Except.ok h)
      | isFalse h => isFalse (fun hc => h (Except.ok.inj hc))
    | .error x, .error y =>
      match decEq x y with
      | isTrue h => isTrue (congrArg Except.error h)
      | isFalse h => isFalse (fun hc => h (Except.error.inj hc))
    | .ok _, .error _ => isFalse (fun hc => Except.noConfusion hc)
    | .error _, .ok _ => isFalse (fun hc => Except.noConfusion hc)

/-- Splits a character list at every separator character, keeping empty
pieces, like Python's `str.split(sep)` for a one-character separator. -/
def splitChars (p : Char → Bool) : List Char → List (List Char)
  | [] => [[]]
  | c :: cs =>
    match splitChars p cs with
    | [] => if p c then [[], []] else [[c]]
    | g :: gs => if p c then [] :: g :: gs else (c :: g) :: gs

/-- Splits a string at every occurrence of a one-character separator,
keeping empty pieces; the model of `str.split(sep)` for the separators
this pipeline uses ("-", ".", ":", " "). -/
def splitOnChar (sep : Char) (s : String) : List String :=
  (splitChars (fun c => c == sep) s.data).map (fun l => String.mk l)

/-- Whitespace split, embedding Python's `str.split()` with no argument:
runs of whitespace separate tokens and empty pieces are dropped. -/
def splitWs (s : String) : List String :=
  ((splitChars Char.isWhitespace s.data).filter (fun t => ¬ t = [])).map
    (fun l => String.mk l)

/-- Numeric value of a nonempty list of decimal digits; `none` when empty
or when a non-digit occurs. -/
def parseNatDigits (cs : List Char) : Option Nat :=
  if cs = [] then none
  else if cs.all Char.isDigit then
    some (cs.foldl (fun a c => 10 * a + (c.toNat - 48)) 0)
  else none

/-- Numeric value of a possibly empty list of decimal digits
(the integer or the fraction part of a float literal may be empty). -/
def parseDigitsOrEmpty (cs : List Char) : Option Nat :=
  if cs.all Char.isDigit then
    some (cs.foldl (fun a c => 10 * a + (c.toNat - 48)) 0)
  else none

/-- Model of Python's `float()` on the literal shapes occurring in the
export: an optional sign, decimal digits, at most one decimal point
(exponents, `inf`, `nan` and underscore separators are outside the model). -/
def parseFloat (s : String) : Option ℚ :=
  let cs := s.data
  let sgn : ℚ := if cs.head? = some '-' then -1 else 1
  let body := if cs.head? = some '-' ∨ cs.head? = some '+' then cs.drop 1 else cs
  match splitChars (fun c => c == '.') body with
  | [ip] =>
    match parseNatDigits ip with
    | some n => some (sgn * n)
    | none => none
  | [ip, fp] =>
    if ip = [] ∧ fp = [] then none
    else
      match parseDigitsOrEmpty ip, parseDigitsOrEmpty fp with
      | some a, some b => some (sgn * ((a : ℚ) + (b : ℚ) / (10 : ℚ) ^ fp.length))
      | _, _ => none
  | _ => none

/-- Model of Python's `int()`: optional sign and decimal digits,
surrounding whitespace stripped; `ValueError` otherwise. -/
def parseIntE (s : String) : Except PyErr Int :=
  let t := (s.data.dropWhile Char.isWhitespace).reverse.dropWhile Char.isWhitespace |>.reverse
  let sgn : Int := if t.head? = some '-' then -1 else 1
  let body := if t.head? = some '-' ∨ t.head? = some '+' then t.drop 1 else t
  match parseNatDigits body with
  | some n => .ok (sgn * n)
  | none => .error .valueErr

/-- First whitespace-delimited token, embedding the `s.split()[0]` idiom of
the unit parsers; an input with no token raises `IndexError`. -/
def tokenAt0 (s : String) : Except PyErr String :=
  match splitWs s with
  | [] => .error .indexErr
  | t :: _ => .ok t

/-- Conversion of a token by Python's `float()`, raising `ValueError`
when the token is not a valid number. -/
def floatE (s : String) : Except PyErr ℚ :=
  match parseFloat s with
  | some q => .ok q
  | none => .error .valueErr

/-- Embedding of `convert_elevation`: a string "xxx cm" becomes
`float(first token) * 2.54 / 12` (centimeters to feet); non-string
input is returned unchanged. -/
def convert_elevation : PyVal → Except PyErr PyVal
  | .str s =>
    match tokenAt0 s with
    | .error e => .error e
    | .ok t =>
      match floatE t with
      | .error e => .error e
      | .ok x => .ok (.num (x * (254 / 100) / 12))
  | v => .ok v

/-- Embedding of `convert_temp`: a string "__ degF" becomes
`float(first token)`; non-string input is returned unchanged. -/
def convert_temp : PyVal → Except PyErr PyVal
  | .str s =>
    match tokenAt0 s with
    | .error e => .error e
    | .ok t =>
      match floatE t with
      | .error e => .error e
      | .ok x => .ok (.num x)
  | v => .ok v

/-- Embedding of `convert_hum`: a string "XX00 %" becomes
`float(first token) / 100`; non-string input is returned unchanged. -/
def convert_hum : PyVal → Except PyErr PyVal
  | .str s =>
    match tokenAt0 s with
    | .error e => .error e
    | .ok t =>
      match floatE t with
      | .error e => .error e
      | .ok x => .ok (.num (x / 100))
  | v => .ok v

/-- Leap-year rule of the proleptic Gregorian calendar used by `datetime`. -/
def isLeapYear (y : Nat) : Bool :=
  decide ((y % 4 = 0 ∧ y % 100 ≠ 0) ∨ y % 400 = 0)

/-- Number of days in a month, as validated by `datetime.date`. -/
def daysInMonth (y m : Nat) : Nat :=
  if m = 2 then (if isLeapYear y then 29 else 28)
  else if m = 4 ∨ m = 6 ∨ m = 9 ∨ m = 11 then 30
  else 31

/-- Embedding of the `datetime.date(y, m, d)` constructor: a `ValueError`
is raised outside the valid calendar range. -/
def mkDateE (y m d : Int) : Except PyErr PyDate :=
  if 1 ≤ y ∧ y ≤ 9999 ∧ 1 ≤ m ∧ m ≤ 12 ∧ 1 ≤ d ∧ d ≤ (daysInMonth y.toNat m.toNat : Int)
  then .ok ⟨y.toNat, m.toNat, d.toNat⟩
  else .error .valueErr

/-- Calendar-date component of a "Y-M-D" token. -/
def parsePyDate (tok : String) : Option PyDate :=
  match (splitChars (fun c => c == '-') tok.data).map parseNatDigits with
  | [some y, some m, some d] =>
    if 1 ≤ y ∧ y ≤ 9999 ∧ 1 ≤ m ∧ m ≤ 12 ∧ 1 ≤ d ∧ d ≤ daysInMonth y m
    then some ⟨y, m, d⟩ else none
  | _ => none

/-- Time-of-day component of an "H:M" or "H:M:S" token. -/
def parsePyTime (tok : String) : Option PyTime :=
  match (splitChars (fun c => c == ':') tok.data).map parseNatDigits with
  | [some h, some m] =>
    if h ≤ 23 ∧ m ≤ 59 then some ⟨h, m, 0⟩ else none
  | [some h, some m, some s] =>
    if h ≤ 23 ∧ m ≤ 59 ∧ s ≤ 59 then some ⟨h, m, s⟩ else none
  | _ => none

/-- Model of `pandas.to_datetime` on one string, for the string shapes this
pipeline reads and persists: "Y-M-D", "Y-M-D H:M:S", or a bare time of day.
Further tokens (the timezone offsets of the raw export) are ignored by the
model.  For a bare time of day pandas attaches the current day; only the
time-of-day component of such values is ever used downstream, so the model
attaches a fixed placeholder date. -/
def parseDatetime (s : String) : Option PyDateTime :=
  match splitWs s with
  | [t1] =>
    match parsePyDate t1 with
    | some d => some ⟨d, ⟨0, 0, 0⟩⟩
    | none =>
      match parsePyTime t1 with
      | some t => some ⟨⟨1900, 1, 1⟩, t⟩
      | none => none
  | t1 :: _ :: _ =>
    match parsePyDate t1, parsePyTime ((splitWs s).getD 1 "") with
    | some d, some t => some ⟨d, t⟩
    | _, _ => none
  | [] => none

/-- Left pad with zeros, for the ISO forms `str(date)` / `str(time)` emit. -/
def padNat (n w : Nat) : String :=
  String.mk (List.replicate (w - (Nat.toDigits 10 n).length) '0' ++ Nat.toDigits 10 n)

/-- Text form `str(datetime.date)`: "YYYY-MM-DD". -/
def dateToString (d : PyDate) : String :=
  padNat d.year 4 ++ "-" ++ padNat d.month 2 ++ "-" ++ padNat d.day 2

/-- Text form `str(datetime.time)`: "HH:MM:SS". -/
def timeToString (t : PyTime) : String :=
  padNat t.hour 2 ++ ":" ++ padNat t.minute 2 ++ ":" ++ padNat t.second 2

/-- One value held by a DataFrame column: a raw string, a typed date /
time / timestamp, a float, or the missing-data marker (NaN / NaT / None). -/
inductive Cell where
  | str (s : String)
  | date (d : PyDate)
  | time (t : PyTime)
  | datetime (ts : PyDateTime)
  | num (q : ℚ)
  | null
deriving DecidableEq

/-- A DataFrame: named columns of cells, embedding `pd.DataFrame`. -/
abbrev Df := List (String × List Cell)

/-- Column selection `df[name]`; a missing column raises `KeyError`. -/
def lookupCol : Df → String → Except PyErr (List Cell)
  | [], _ => .error .keyErr
  | p :: ps, n => if p.1 = n then .ok p.2 else lookupCol ps n

/-- Column assignment `df[name] = col`: replaces the column in place
(appends when absent, which never happens in the guarded call sites). -/
def setCol : Df → String → List Cell → Df
  | [], n, c => [(n, c)]
  | p :: ps, n, c => if p.1 = n then (n, c) :: ps else p :: setCol ps n c

/-- Element access `series[0]` under the default integer index: the first
element; on an empty series the label 0 is absent and `KeyError` is raised. -/
def seriesGet0 : List Cell → Except PyErr Cell
  | [] => .error .keyErr
  | c :: _ => .ok c

/-- Decides `type(x) == str` on a cell. -/
def isStr : Cell → Bool
  | .str _ => true
  | _ => false

/-- Model of `pandas.to_datetime` applied to one cell: strings are parsed
(`ValueError` on failure), timestamps and dates pass through, the missing
marker stays missing (NaT); `datetime.time` objects and numbers are outside
the shapes this pipeline feeds in and are modelled as `TypeError`. -/
def toDatetimeCell : Cell → Except PyErr Cell
  | .str s =>
    match parseDatetime s with
    | some ts => .ok (.datetime ts)
    | none => .error .valueErr
  | .datetime ts => .ok (.datetime ts)
  | .date d => .ok (.datetime ⟨d, ⟨0, 0, 0⟩⟩)
  | .null => .ok .null
  | .time _ => .error .typeErr
  | .num _ => .error .typeErr

/-- Accessor `.dt.date` on a converted cell. -/
def dtDate : Cell → Cell
  | .datetime ts => .date ts.date
  | c => c

/-- Accessor `.dt.time` on a converted cell. -/
def dtTime : Cell → Cell
  | .datetime ts => .time ts.tod
  | c => c

/-- Effectful map over a list, short-circuiting on the first error, the
way a pandas column conversion either converts every element or raises. -/
def mapME {α β : Type} (f : α → Except PyErr β) : List α → Except PyErr (List β)
  | [] => .ok []
  | a :: as =>
    match f a with
    | .error e => .error e
    | .ok b =>
      match mapME f as with
      | .error e => .error e
      | .ok bs => .ok (b :: bs)

/-- One column step of `enforce_dtypes`: when element 0 of the column is a
string, run the whole column through `pandas.to_datetime` and the given
`.dt` accessor; otherwise leave the frame untouched. -/
def fixCol (df : Df) (name : String) (post : Cell → Cell) : Except PyErr Df :=
  match lookupCol df name with
  | .error e => .error e
  | .ok c =>
    match seriesGet0 c with
    | .error e => .error e
    | .ok c0 =>
      if isStr c0 then
        match mapME toDatetimeCell c with
        | .error e => .error e
        | .ok tc => .ok (setCol df name (tc.map post))
      else .ok df

/-- Embedding of `enforce_dtypes(df, mode)`: for `"runs"` the `Date`,
`Start` and `End` columns are normalized to dates and times of day, for
`"heart_rates"` the `Time` column is normalized to timestamps; any other
mode prints a message and falls through, returning Python `None`. -/
def enforce_dtypes (df : Df) (mode : String) : Except PyErr (Option Df) :=
  if mode = "runs" then
    match fixCol df "Date" dtDate with
    | .error e => .error e
    | .ok d1 =>
      match fixCol d1 "Start" dtTime with
      | .error e => .error e
      | .ok d2 =>
        match fixCol d2 "End" dtTime with
        | .error e => .error e
        | .ok d3 => .ok (some d3)
  else if mode = "heart_rates" then
    match fixCol df "Time" (fun c => c) with
    | .error e => .error e
    | .ok d1 => .ok (some d1)
  else
    .ok none

/-- Insertion into a sorted list, auxiliary to `sortBy`. -/
def insertSorted {α : Type} (le : α → α → Bool) (a : α) : List α → List α
  | [] => [a]
  | b :: bs => if le a b then a :: b :: bs else b :: insertSorted le a bs

/-- Comparison sort producing an ascending permutation, the model of
`sort_values` / `sorted`; the tie order of the library sort is an
implementation detail and nothing below relies on this model's tie order. -/
def sortBy {α : Type} (le : α → α → Bool) (l : List α) : List α :=
  l.foldr (insertSorted le) []

/-- One heart-rate sample: one row of the `heart_rates` table, with the
`Time`, `Value` and `Unit` columns (missing data as `none`). -/
structure HrSample where
  ts : Option PyDateTime
  value : Option ℚ
  unit : Option String
deriving DecidableEq

/-- The fields `find_hr` reads from a row of `runs`: its `Date`, `Start`
and `End` entries (`endt` embeds the `End` column). -/
structure RunWindow where
  date : Option PyDate
  start : Option PyTime
  endt : Option PyTime
deriving DecidableEq

/-- Condition `heart_rates['Time'].dt.date == row['Date']` on one sample;
comparisons against missing data are false. -/
def hrCond1 (h : HrSample) (w : RunWindow) : Bool :=
  match h.ts, w.date with
  | some t, some d => decide (t.date = d)
  | _, _ => false

/-- Condition `heart_rates['Time'].dt.time < row['End']` on one sample. -/
def hrCond2 (h : HrSample) (w : RunWindow) : Bool :=
  match h.ts, w.endt with
  | some t, some e => timeLtB t.tod e
  | _, _ => false

/-- Condition `row['Start'] < heart_rates['Time'].dt.time` on one sample. -/
def hrCond3 (h : HrSample) (w : RunWindow) : Bool :=
  match w.start, h.ts with
  | some s, some t => timeLtB s t.tod
  | _, _ => false

/-- The window selection of `find_hr`: the rows of `heart_rates`
satisfying all three conditions. -/
def findHrSelection (heart_rates : List HrSample) (w : RunWindow) : List HrSample :=
  heart_rates.filter (fun h => hrCond1 h w && hrCond2 h w && hrCond3 h w)

/-- Largest element of a list of rationals. -/
def qMax : List ℚ → Option ℚ
  | [] => none
  | x :: xs => some (xs.foldl max x)

/-- Model of `Series.max`: missing values are skipped; the maximum of an
empty or all-missing series is the missing marker NaN. -/
def seriesMax (vs : List (Option ℚ)) : Option ℚ :=
  qMax (vs.filterMap (fun v => v))

/-- Model of `Series.mean`: missing values are skipped; the mean of an
empty or all-missing series is NaN. -/
def seriesMean (vs : List (Option ℚ)) : Option ℚ :=
  match vs.filterMap (fun v => v) with
  | [] => none
  | l => some (l.sum / l.length)

/-- Model of `Series.median`: missing values are skipped; the median of an
empty or all-missing series is NaN, otherwise the middle element of the
sorted values, or the average of the two middle ones. -/
def seriesMedian (vs : List (Option ℚ)) : Option ℚ :=
  let l := sortBy (fun a b => decide (a ≤ b)) (vs.filterMap (fun v => v))
  if l.length = 0 then none
  else if l.length % 2 = 1 then some (l.getD (l.length / 2) 0)
  else some ((l.getD (l.length / 2 - 1) 0 + l.getD (l.length / 2) 0) / 2)

/-- Result of `find_hr`: a float statistic for modes max / median / mean,
or the selected sub-frame for mode "all". -/
inductive HrResult where
  | stat (v : Option ℚ)
  | frame (sub : List HrSample)
deriving DecidableEq

/-- Embedding of `FitnessProcessor.find_hr(row, mode)`: selects the
samples inside the row's window and returns the requested aggregate, or
the raw subset for mode "all"; any other mode raises `ValueError`. -/
def find_hr (heart_rates : List HrSample) (row : RunWindow) (mode : String) :
    Except PyErr HrResult :=
  let hrs := findHrSelection heart_rates row
  if mode = "max" then .ok (.stat (seriesMax (hrs.map (fun h => h.value))))
  else if mode = "median" then .ok (.stat (seriesMedian (hrs.map (fun h => h.value))))
  else if mode = "mean" then .ok (.stat (seriesMean (hrs.map (fun h => h.value))))
  else if mode = "all" then .ok (.frame hrs)
  else .error .valueErr

/-- A raw `Workout` element of the export: its XML attributes and the
key/value pairs of its nested `MetadataEntry` elements. -/
structure Workout where
  attrib : List (String × String)
  metadata : List (String × String)
deriving DecidableEq

/-- The parsed XML document: running workouts and heart-rate records
(each record its attribute map). -/
structure Xml where
  workouts : List Workout
  hrRecords : List (List (String × String))
deriving DecidableEq

/-- First value bound to a key in an attribute map. -/
def lookupA (m : List (String × String)) (k : String) : Option String :=
  match m.find? (fun p => p.1 == k) with
  | some p => some p.2
  | none => none

/-- Lookup in the merged dict `{**workout.attrib, **metadata}`:
metadata entries override workout attributes. -/
def mergedLookup (w : Workout) (k : String) : Option String :=
  match lookupA w.metadata k with
  | some v => some v
  | none => lookupA w.attrib k

/-- Whether the DataFrame built from the workout rows has a column for
key `k`: the columns of `pd.DataFrame(list_of_dicts)` are the union of
the dict keys, and rows lacking a key hold NaN. -/
def colExists (ws : List Workout) (k : String) : Bool :=
  ws.any (fun w => (mergedLookup w k).isSome)

/-- The columns `get_runs` selects and renames (`col_maps`). -/
def colMapsKeys : List String :=
  ["startDate", "endDate", "totalDistance", "duration", "totalEnergyBurned",
   "HKWeatherTemperature", "HKWeatherHumidity", "HKIndoorWorkout",
   "HKElevationAscended"]

/-- One fully derived row of the `runs` table (missing data as `none`). -/
structure RunRow where
  date : Option PyDate
  distance : Option ℚ
  duration : Option ℚ
  pace : Option ℚ
  speed : Option ℚ
  avgHr : Option ℚ
  maxHr : Option ℚ
  energy : Option ℚ
  temperature : Option ℚ
  humidity : Option ℚ
  indoor : Option String
  elevation : Option ℚ
  start : Option PyTime
  endt : Option PyTime
deriving DecidableEq

/-- Applies a unit parser to one cell of a column, as `.apply(convert_*)`
does: NaN passes through the parsers' non-string branch unchanged. -/
def applyConv (conv : PyVal → Except PyErr PyVal) :
    Option String → Except PyErr (Option ℚ)
  | none => .ok none
  | some s =>
    match conv (.str s) with
    | .ok (.num q) => .ok (some q)
    | .ok (.str _) => .error .typeErr
    | .error e => .error e

/-- Model of `.astype(float)` on one cell: NaN stays NaN, a string must be
a valid float literal. -/
def astypeFloat : Option String → Except PyErr (Option ℚ)
  | none => .ok none
  | some s =>
    match parseFloat s with
    | some q => .ok (some q)
    | none => .error .valueErr

/-- Model of `pd.to_datetime` on one raw cell: NaN becomes NaT. -/
def optToDatetime : Option String → Except PyErr (Option PyDateTime)
  | none => .ok none
  | some s =>
    match parseDatetime s with
    | some ts => .ok (some ts)
    | none => .error .valueErr

/-- Per-workout part of `get_runs`: select and rename the fields of
interest, run the unit parsers on temperature / humidity / elevation,
coerce the float columns, and split the raw timestamps into the `Date`,
`Start` and `End` components.  The source performs these steps column by
column in this order; the row-wise model computes the same table. -/
def prepRow (w : Workout) : Except PyErr RunRow := do
  let temperature ← applyConv convert_temp (mergedLookup w "HKWeatherTemperature")
  let humidity ← applyConv convert_hum (mergedLookup w "HKWeatherHumidity")
  let elevation ← applyConv convert_elevation (mergedLookup w "HKElevationAscended")
  let distance ← astypeFloat (mergedLookup w "totalDistance")
  let duration ← astypeFloat (mergedLookup w "duration")
  let energy ← astypeFloat (mergedLookup w "totalEnergyBurned")
  let startTs ← optToDatetime (mergedLookup w "startDate")
  let endTs ← optToDatetime (mergedLookup w "endDate")
  pure { date := startTs.map (fun ts => ts.date),
         distance := distance, duration := duration,
         pace := none, speed := none, avgHr := none, maxHr := none,
         energy := energy, temperature := temperature, humidity := humidity,
         indoor := mergedLookup w "HKIndoorWorkout",
         elevation := elevation,
         start := startTs.map (fun ts => ts.tod),
         endt := endTs.map (fun ts => ts.tod) }

/-- Ascending comparison on the `Date` column for the sort step; missing
dates (NaT) are placed last, as `sort_values` does. -/
def optDateLe (a b : Option PyDate) : Bool :=
  match a, b with
  | some x, some y => dateLtB x y || decide (x = y)
  | some _, none => true
  | none, some _ => false
  | none, none => true

/-- Float division on cells: NaN propagates.  A zero divisor yields a
non-finite float in pandas; the model collapses it to the missing marker
(never exercised: the claims assume positive operands). -/
def optDiv : Option ℚ → Option ℚ → Option ℚ
  | some a, some b => if b = 0 then none else some (a / b)
  | _, _ => none

/-- Scalar multiplication on cells: NaN propagates. -/
def optScale (c : ℚ) : Option ℚ → Option ℚ
  | some a => some (c * a)
  | none => none

/-- The `Speed` / `Pace` step of `get_runs`:
`Speed = 60 * Distance / Duration` and `Pace = Duration / Distance`. -/
def addSpeedPace (r : RunRow) : RunRow :=
  { r with speed := optDiv (optScale 60 r.distance) r.duration,
           pace := optDiv r.duration r.distance }

/-- Projection of a `find_hr` statistic, as used inside `.apply`; the
modes passed there ("max", "mean") always yield a statistic. -/
def find_hr_stat (heart_rates : List HrSample) (w : RunWindow) (mode : String) :
    Except PyErr (Option ℚ) :=
  match find_hr heart_rates w mode with
  | .error e => .error e
  | .ok (.stat v) => .ok v
  | .ok (.frame _) => .error .typeErr

/-- The `Max HR` / `Avg HR` step of `get_runs`: two `find_hr`
applications per row. -/
def addHrStats (heart_rates : List HrSample) (r : RunRow) : Except PyErr RunRow :=
  match find_hr_stat heart_rates ⟨r.date, r.start, r.endt⟩ "max" with
  | .error e => .error e
  | .ok mx =>
    match find_hr_stat heart_rates ⟨r.date, r.start, r.endt⟩ "mean" with
    | .error e => .error e
    | .ok av => .ok { r with maxHr := mx, avgHr := av }

/-- Embedding of `FitnessProcessor.get_runs`: build one row per workout,
select/rename the fields of interest (`KeyError` when a column is absent
from every workout), convert units, sort ascending by `Date`, derive
`Speed` / `Pace`, attach the heart-rate statistics, and project the final
columns.  When `is_cached` is set the source calls `load_csv('runs')`,
which returns Python `None`, and `.merge(None, ...)` raises `TypeError`
(dead code in the `__init__` flow, where extraction runs only when the
cache is stale). -/
def get_runs (xml : Xml) (heart_rates : List HrSample) (is_cached : Bool) :
    Except PyErr (List RunRow) :=
  if colMapsKeys.all (fun k => colExists xml.workouts k) then
    match mapME prepRow xml.workouts with
    | .error e => .error e
    | .ok prepped =>
      let sorted := sortBy (fun a b => optDateLe a.date b.date) prepped
      let withSp := sorted.map addSpeedPace
      match mapME (addHrStats heart_rates) withSp with
      | .error e => .error e
      | .ok withHr => if is_cached then .error .typeErr else .ok withHr
  else .error .keyErr

/-- Ascending comparison on the raw `endDate` strings (plain string
order), missing values last. -/
def optStrLe (a b : Option String) : Bool :=
  match a, b with
  | some x, some y => decide (x ≤ y)
  | some _, none => true
  | none, some _ => false
  | none, none => true

/-- Ascending comparison on the `Time` column, missing values (NaT) last. -/
def optTsLe (a b : Option PyDateTime) : Bool :=
  match a, b with
  | some x, some y => tsLeB x y
  | some _, none => true
  | none, some _ => false
  | none, none => true

/-- One record row of `get_hrs`: `Time` from `endDate`, `Value` from
`value`, `Unit` from `unit`. -/
def hrRowOf (rec : List (String × String)) : Except PyErr HrSample :=
  match optToDatetime (lookupA rec "endDate") with
  | .error e => .error e
  | .ok ts =>
    match astypeFloat (lookupA rec "value") with
    | .error e => .error e
    | .ok v => .ok ⟨ts, v, lookupA rec "unit"⟩

/-- Embedding of `FitnessProcessor.get_hrs`: heart-rate records are put in
a frame (`KeyError` when the `endDate`, `value` or `unit` column is absent
from every record, in particular when there are no records), sorted by the
raw `endDate` string, converted, and sorted by `Time`.  The `is_cached`
merge branch is the same dead `merge(None)` code as in `get_runs`. -/
def get_hrs (xml : Xml) (is_cached : Bool) : Except PyErr (List HrSample) :=
  let recs := xml.hrRecords
  if (recs.any (fun r => (lookupA r "endDate").isSome))
      && (recs.any (fun r => (lookupA r "value").isSome))
      && (recs.any (fun r => (lookupA r "unit").isSome)) then
    let sorted1 := sortBy (fun a b => optStrLe (lookupA a "endDate") (lookupA b "endDate")) recs
    match mapME hrRowOf sorted1 with
    | .error e => .error e
    | .ok rows =>
      let rows2 := sortBy (fun a b => optTsLe a.ts b.ts) rows
      if is_cached then .error .typeErr else .ok rows2
  else .error .keyErr

/-- Cell of a float column. -/
def qCell : Option ℚ → Cell
  | some q => .num q
  | none => .null

/-- Cell of a date column. -/
def dateCell : Option PyDate → Cell
  | some d => .date d
  | none => .null

/-- Cell of a time-of-day column. -/
def timeCell : Option PyTime → Cell
  | some t => .time t
  | none => .null

/-- Cell of a timestamp column. -/
def tsCell : Option PyDateTime → Cell
  | some ts => .datetime ts
  | none => .null

/-- Cell of a text column. -/
def strCell : Option String → Cell
  | some s => .str s
  | none => .null

/-- The `heart_rates` table as the DataFrame `get_hrs` returns. -/
def hrTableToDf (tab : List HrSample) : Df :=
  [("Time", tab.map (fun h => tsCell h.ts)),
   ("Value", tab.map (fun h => qCell h.value)),
   ("Unit", tab.map (fun h => strCell h.unit))]

/-- The `runs` table as the DataFrame `get_runs` returns, in its final
column order. -/
def runTableToDf (tab : List RunRow) : Df :=
  [("Date", tab.map (fun r => dateCell r.date)),
   ("Distance", tab.map (fun r => qCell r.distance)),
   ("Duration", tab.map (fun r => qCell r.duration)),
   ("Pace", tab.map (fun r => qCell r.pace)),
   ("Speed", tab.map (fun r => qCell r.speed)),
   ("Avg HR", tab.map (fun r => qCell r.avgHr)),
   ("Max HR", tab.map (fun r => qCell r.maxHr)),
   ("Energy", tab.map (fun r => qCell r.energy)),
   ("Temperature", tab.map (fun r => qCell r.temperature)),
   ("Humidity", tab.map (fun r => qCell r.humidity)),
   ("Indoor", tab.map (fun r => strCell r.indoor)),
   ("Elevation", tab.map (fun r => qCell r.elevation)),
   ("Start", tab.map (fun r => timeCell r.start)),
   ("End", tab.map (fun r => timeCell r.endt))]

/-- Composite effect of `to_csv` followed by `read_csv` on one cell:
typed date / time / timestamp values are serialized to their ISO text
forms and read back as strings, numbers and missing markers round-trip. -/
def serializeCell : Cell → Cell
  | .date d => .str (dateToString d)
  | .time t => .str (timeToString t)
  | .datetime ts => .str (dateToString ts.date ++ " " ++ timeToString ts.tod)
  | c => c

/-- Persisted form of a DataFrame: what `read_csv` yields after `to_csv`. -/
def serializeDf (df : Df) : Df :=
  df.map (fun p => (p.1, p.2.map serializeCell))

/-- The on-disk state the processor touches: the `as_of.txt` marker and
the two cached csv files, each stored as the frame `read_csv` would
return (absent file as `none`). -/
structure Storage where
  marker : Option String
  runsCsv : Option Df
  hrsCsv : Option Df
deriving DecidableEq

/-- The in-memory session state after `__init__`: the two table
attributes and the `is_cached` flag. -/
structure Session where
  heart_rates : Option Df
  runs : Option Df
  is_cached : Bool
deriving DecidableEq

/-- Model of `pd.read_csv` on a cache file: `FileNotFoundError` when the
file is absent. -/
def read_csv (file : Option Df) : Except PyErr Df :=
  match file with
  | some d => .ok d
  | none => .error .fileErr

/-- Embedding of `FitnessProcessor.load_csv(mode)`: read the stored csv
for the mode and normalize its dtypes; an unrecognized mode prints a
message and assigns nothing (`none`). -/
def load_csv (st : Storage) (mode : String) : Except PyErr (Option Df) :=
  if mode = "runs" then
    match read_csv st.runsCsv with
    | .error e => .error e
    | .ok f => enforce_dtypes f "runs"
  else if mode = "heart_rates" then
    match read_csv st.hrsCsv with
    | .error e => .error e
    | .ok f => enforce_dtypes f "heart_rates"
  else .ok none

/-- Parsing of the `as_of.txt` content in `check_cache`: split on "-",
convert every piece with `int()`, and build `dt.date` from the first
three values (`IndexError` when fewer than three pieces are present). -/
def parseAsOf (text : String) : Except PyErr PyDate :=
  match mapME parseIntE (splitOnChar '-' text) with
  | .error e => .error e
  | .ok ints =>
    match ints with
    | a :: b :: c :: _ => mkDateE a b c
    | _ => .error .indexErr

/-- Embedding of `FitnessProcessor.check_cache`: the session is cached
exactly when the marker file exists and its date equals today. -/
def check_cache (today : PyDate) (marker : Option String) : Except PyErr Bool :=
  match marker with
  | some text =>
    match parseAsOf text with
    | .error e => .error e
    | .ok d => .ok (decide (today = d))
  | none => .ok false

/-- Embedding of `FitnessProcessor.__init__` (with `update_cache` and
`save_csvs` inlined): when `check_cache` holds, both tables are loaded
from the persisted csvs; otherwise both are re-extracted from the XML,
persisted, and the marker is overwritten with `str(today)`. -/
def fp_init (today : PyDate) (st : Storage) (xml : Xml) :
    Except PyErr (Session × Storage) :=
  match check_cache today st.marker with
  | .error e => .error e
  | .ok cached =>
    if cached then
      match load_csv st "heart_rates" with
      | .error e => .error e
      | .ok hro =>
        match load_csv st "runs" with
        | .error e => .error e
        | .ok ro => .ok (⟨hro, ro, true⟩, st)
    else
      match get_hrs xml false with
      | .error e => .error e
      | .ok hrTab =>
        match get_runs xml hrTab false with
        | .error e => .error e
        | .ok runTab =>
          .ok (⟨some (hrTableToDf hrTab), some (runTableToDf runTab), false⟩,
               ⟨some (dateToString today),
                some (serializeDf (runTableToDf runTab)),
                some (serializeDf (hrTableToDf hrTab))⟩)

/-- Concrete date used by the witnesses below. -/
def dW : PyDate := ⟨2021, 8, 9⟩

/-- Synthetic run window 10:00 - 11:00 on `dW` (the spec's example). -/
def winC1 : RunWindow := ⟨some dW, some ⟨10, 0, 0⟩, some ⟨11, 0, 0⟩⟩

/-- Heart-rate sample at a given time of day on `dW`. -/
def sampAt (t : PyTime) : HrSample := ⟨some ⟨dW, t⟩, some 100, some "count/min"⟩

/-- Samples at 09:59, 10:00, 10:30, 11:00, 11:01 on `dW`. -/
def hrsC1 : List HrSample :=
  [sampAt ⟨9, 59, 0⟩, sampAt ⟨10, 0, 0⟩, sampAt ⟨10, 30, 0⟩,
   sampAt ⟨11, 0, 0⟩, sampAt ⟨11, 1, 0⟩]

/-- Run window for the empty-selection witness. -/
def winC3 : RunWindow := ⟨some dW, some ⟨10, 0, 0⟩, some ⟨11, 0, 0⟩⟩

/-- Workout record with distance 5.0 mi and duration 45.0 min. -/
def wkC6 : Workout :=
  ⟨[("startDate", "2021-08-09 18:54:00"), ("endDate", "2021-08-09 19:39:00"),
    ("totalDistance", "5.0"), ("duration", "45.0"), ("totalEnergyBurned", "500")],
   [("HKWeatherTemperature", "70 degF"), ("HKWeatherHumidity", "5000 %"),
    ("HKIndoorWorkout", "0"), ("HKElevationAscended", "120 cm")]⟩

/-- Export document holding the single workout `wkC6`. -/
def xmlC6 : Xml := ⟨[wkC6], []⟩

/-- The row `get_runs` derives from `wkC6` with no heart-rate data. -/
def rowC6 : RunRow :=
  { date := some ⟨2021, 8, 9⟩, distance := some 5, duration := some 45,
    pace := some (45 / 5), speed := some (60 * 5 / 45),
    avgHr := none, maxHr := none, energy := some 500,
    temperature := some 70, humidity := some 50, indoor := some "0",
    elevation := some (120 * (254 / 100) / 12),
    start := some ⟨18, 54, 0⟩, endt := some ⟨19, 39, 0⟩ }

/-- Stored runs csv as `read_csv` returns it (all text). -/
def runsCsvW : Df :=
  [("Date", [Cell.str "2021-08-09"]), ("Start", [Cell.str "18:54:00"]),
   ("End", [Cell.str "19:39:00"])]

/-- Stored heart-rates csv as `read_csv` returns it. -/
def hrsCsvW : Df := [("Time", [Cell.str "2021-08-09 18:55:00"])]

/-- Storage whose marker is dated 2021-08-09. -/
def stC2 : Storage := ⟨some "2021-08-09", some runsCsvW, some hrsCsvW⟩

/-- The normalized runs table loaded from `runsCsvW`. -/
def runsDfW : Df :=
  [("Date", [Cell.date ⟨2021, 8, 9⟩]), ("Start", [Cell.time ⟨18, 54, 0⟩]),
   ("End", [Cell.time ⟨19, 39, 0⟩])]

/-- The normalized heart-rates table loaded from `hrsCsvW`. -/
def hrsDfW : Df := [("Time", [Cell.datetime ⟨⟨2021, 8, 9⟩, ⟨18, 55, 0⟩⟩])]

/-- Two distinct export documents, to exhibit that a fresh session does
not depend on the XML. -/
def xmlC2a : Xml := ⟨[], []⟩

/-- Second export document for the same purpose. -/
def xmlC2b : Xml := ⟨[⟨[("startDate", "2021-01-01 00:00:00")], []⟩],
  [[("endDate", "2021-01-01 00:00:00"), ("value", "60"), ("unit", "count/min")]]⟩

/-- Raw (all-text) table for the idempotence witness. -/
def dfC9 : Df :=
  [("Date", [Cell.str "2021-08-09"]), ("Start", [Cell.str "18:54:00"]),
   ("End", [Cell.str "19:39:00"])]

/-- Its normalized form, a fixed point of the normalizer. -/
def dfC9n : Df :=
  [("Date", [Cell.date ⟨2021, 8, 9⟩]), ("Start", [Cell.time ⟨18, 54, 0⟩]),
   ("End", [Cell.time ⟨19, 39, 0⟩])]

/-- A table carrying the required columns with zero rows. -/
def dfC10a : Df := [("Date", []), ("Start", []), ("End", []), ("Time", [])]

/-- A `Time` column whose element 0 is typed while a later element is
still text. -/
def dfC10b : Df :=
  [("Time", [Cell.datetime ⟨⟨2021, 8, 9⟩, ⟨10, 0, 0⟩⟩,
             Cell.str "2021-08-09 11:00:00"])]

/-- A column's head exists and is not a string: the state of every
date/time-bearing column after normalization. -/
def headNonStr (df : Df) (name : String) : Prop :=
  ∃ c0 rest, lookupCol df name = .ok (c0 :: rest) ∧ isStr c0 = false

/-- C5: each unit parser maps its textual form to the specified numeric
value and returns already-numeric input unchanged: `convert_temp "10 degF"`
is `10`, `convert_hum "5000 %"` is `50` (fixed divisor 100),
`convert_elevation "120 cm"` is `120 * 2.54 / 12 = 25.4` (within `1e-9`),
and each parser is the identity on numeric input. -/
theorem unit_parsers_values_c5 :
    convert_temp (.str "10 degF") = .ok (.num 10)
    ∧ convert_temp (.num 10) = .ok (.num 10)
    ∧ convert_hum (.str "5000 %") = .ok (.num 50)
    ∧ convert_hum (.num 50) = .ok (.num 50)
    ∧ convert_elevation (.str "120 cm") = .ok (.num (120 * (254 / 100) / 12))
    ∧ (120 : ℚ) * (254 / 100) / 12 = 254 / 10
    ∧ |(120 : ℚ) * (254 / 100) / 12 - 25.4| < 1 / 1000000000
    ∧ convert_elevation (.num 10) = .ok (.num 10) := by
  refine ⟨by with_unfolding_all decide, rfl, by with_unfolding_all decide, rfl,
    by with_unfolding_all decide, by norm_num, by norm_num, rfl⟩

/-- C8: when the first whitespace-delimited token of a string input is not
a valid number, each of the three unit parsers propagates a `ValueError`
to the caller; no default value is returned. -/
theorem unit_parsers_error_c8 (s t : String) (rest : List String)
    (hsplit : splitWs s = t :: rest) (hbad : parseFloat t = none) :
    convert_temp (.str s) = .error .valueErr
    ∧ convert_hum (.str s) = .error .valueErr
    ∧ convert_elevation (.str s) = .error .valueErr := by
  have h0 : tokenAt0 s = .ok t := by
    unfold tokenAt0
    rw [hsplit]
  have h1 : floatE t = .error .valueErr := by
    unfold floatE
    rw [hbad]
  refine ⟨?_, ?_, ?_⟩ <;> simp only [convert_temp, convert_hum, convert_elevation, h0, h1]

/-- Witness for C8 at the concrete input "abc cm". -/
theorem unit_parsers_error_c8_witness :
    splitWs "abc cm" = "abc" :: ["cm"]
    ∧ parseFloat "abc" = none
    ∧ convert_temp (.str "abc cm") = .error .valueErr
    ∧ convert_hum (.str "abc cm") = .error .valueErr
    ∧ convert_elevation (.str "abc cm") = .error .valueErr := by
  have h := unit_parsers_error_c8 "abc cm" "abc" ["cm"] (by decide) (by decide)
  exact ⟨by decide, by decide, h.1, h.2.1, h.2.2⟩


theorem mapME_cons_ok {α β : Type} {f : α → Except PyErr β} {a : α} {as : List α}
    {bs : List β} (h : mapME f (a :: as) = .ok bs) :
    ∃ b bs2, f a = .ok b ∧ mapME f as = .ok bs2 ∧ bs = b :: bs2 := by
  unfold mapME at h
  cases hfa : f a with
  | error e => rw [hfa] at h; exact Except.noConfusion h
  | ok b =>
    rw [hfa] at h
    cases hrest : mapME f as with
    | error e => rw [hrest] at h; exact Except.noConfusion h
    | ok bs2 =>
      rw [hrest] at h
      exact ⟨b, bs2, rfl, rfl, (Except.ok.inj h).symm⟩

theorem mapME_mem {α β : Type} {f : α → Except PyErr β} :
    ∀ {as : List α} {bs : List β}, mapME f as = .ok bs →
      ∀ {b : β}, b ∈ bs → ∃ a, a ∈ as ∧ f a = .ok b := by
  intro as
  induction as with
  | nil =>
    intro bs h b hb
    unfold mapME at h
    rw [← Except.ok.inj h] at hb
    exact absurd hb (List.not_mem_nil b)
  | cons a as ih =>
    intro bs h b hb
    obtain ⟨b0, bs2, hfa, hrest, rfl⟩ := mapME_cons_ok h
    rcases List.mem_cons.mp hb with rfl | hb2
    · exact ⟨a, List.mem_cons_self a as, hfa⟩
    · obtain ⟨a2, ha2, hfa2⟩ := ih hrest hb2
      exact ⟨a2, List.mem_cons_of_mem a ha2, hfa2⟩

theorem lookupCol_setCol_self (df : Df) (n : String) (c : List Cell) :
    lookupCol (setCol df n c) n = .ok c := by
  induction df with
  | nil => simp [setCol, lookupCol]
  | cons p ps ih =>
    unfold setCol
    by_cases h : p.1 = n
    · simp [h, lookupCol]
    · simp [h, lookupCol, ih]

theorem lookupCol_setCol_ne (df : Df) (n m : String) (c : List Cell)
    (hne : m ≠ n) : lookupCol (setCol df n c) m = lookupCol df m := by
  have hnm : ¬ n = m := fun hc => hne hc.symm
  induction df with
  | nil => simp [setCol, lookupCol, hnm]
  | cons p ps ih =>
    unfold setCol
    by_cases h : p.1 = n
    · have hpm : ¬ p.1 = m := fun hc => hnm (h.symm.trans hc)
      simp [h, lookupCol, hnm, hpm]
    · by_cases h2 : p.1 = m
      · simp [h, lookupCol, h2, hne]
      · simp [h, lookupCol, h2, ih]

theorem lookupCol_ok_mem {df : Df} {n : String} {c : List Cell}
    (h : lookupCol df n = .ok c) : ∃ p, p ∈ df ∧ p.2 = c := by
  induction df with
  | nil => exact Except.noConfusion h
  | cons p ps ih =>
    unfold lookupCol at h
    by_cases hp : p.1 = n
    · rw [if_pos hp] at h
      exact ⟨p, List.mem_cons_self p ps, Except.ok.inj h⟩
    · rw [if_neg hp] at h
      obtain ⟨q, hq, hqc⟩ := ih h
      exact ⟨q, List.mem_cons_of_mem p hq, hqc⟩

theorem lookupCol_error {df : Df} {n : String} {e : PyErr}
    (h : lookupCol df n = .error e) : e = .keyErr := by
  induction df with
  | nil => exact (Except.error.inj h).symm
  | cons p ps ih =>
    unfold lookupCol at h
    by_cases hp : p.1 = n
    · rw [if_pos hp] at h; exact Except.noConfusion h
    · rw [if_neg hp] at h; exact ih h

theorem seriesGet0_ok {c : List Cell} {c0 : Cell} (h : seriesGet0 c = .ok c0) :
    ∃ rest, c = c0 :: rest := by
  cases c with
  | nil => exact Except.noConfusion h
  | cons x xs => exact ⟨xs, by rw [Except.ok.inj h]⟩

theorem toDatetimeCell_shape {c c2 : Cell} (h : toDatetimeCell c = .ok c2) :
    (∃ ts, c2 = .datetime ts) ∨ c2 = .null := by
  cases c with
  | str s =>
    simp only [toDatetimeCell] at h
    cases hp : parseDatetime s with
    | some ts => rw [hp] at h; exact Or.inl ⟨ts, (Except.ok.inj h).symm⟩
    | none => rw [hp] at h; exact Except.noConfusion h
  | datetime ts => exact Or.inl ⟨ts, (Except.ok.inj h).symm⟩
  | date d => exact Or.inl ⟨⟨d, ⟨0, 0, 0⟩⟩, (Except.ok.inj h).symm⟩
  | null => exact Or.inr (Except.ok.inj h).symm
  | time t => exact Except.noConfusion h
  | num q => exact Except.noConfusion h

theorem toDatetimeCell_nonstr {c c2 : Cell} (h : toDatetimeCell c = .ok c2) :
    isStr (dtDate c2) = false ∧ isStr (dtTime c2) = false ∧ isStr c2 = false := by
  rcases toDatetimeCell_shape h with ⟨ts, rfl⟩ | rfl <;> simp [dtDate, dtTime, isStr]

theorem fixCol_ok_headNonStr {df df2 : Df} {n : String} {post : Cell → Cell}
    (hpost : ∀ c c2, toDatetimeCell c = .ok c2 → isStr (post c2) = false)
    (h : fixCol df n post = .ok df2) : headNonStr df2 n := by
  unfold fixCol at h
  split at h
  · exact Except.noConfusion h
  · rename_i c hl
    split at h
    · exact Except.noConfusion h
    · rename_i c0 hg
      obtain ⟨rest, rfl⟩ := seriesGet0_ok hg
      by_cases hs : isStr c0 = true
      · rw [if_pos hs] at h
        split at h
        · exact Except.noConfusion h
        · rename_i tc hm
          obtain ⟨b, bs2, hfa, hrest2, rfl⟩ := mapME_cons_ok hm
          rw [← Except.ok.inj h]
          exact ⟨post b, bs2.map post, lookupCol_setCol_self df n _, hpost c0 b hfa⟩
      · rw [if_neg hs] at h
        rw [← Except.ok.inj h]
        exact ⟨c0, rest, hl, by simpa using hs⟩

theorem fixCol_frame {df df2 : Df} {n m : String} {post : Cell → Cell}
    (h : fixCol df n post = .ok df2) (hne : m ≠ n) :
    lookupCol df2 m = lookupCol df m := by
  unfold fixCol at h
  split at h
  · exact Except.noConfusion h
  · rename_i c hl
    split at h
    · exact Except.noConfusion h
    · rename_i c0 hg
      by_cases hs : isStr c0 = true
      · rw [if_pos hs] at h
        split at h
        · exact Except.noConfusion h
        · rename_i tc hm
          rw [← Except.ok.inj h]
          exact lookupCol_setCol_ne df n m _ hne
      · rw [if_neg hs] at h
        rw [← Except.ok.inj h]

theorem fixCol_noop {df : Df} {n : String} (post : Cell → Cell)
    (h : headNonStr df n) : fixCol df n post = .ok df := by
  obtain ⟨c0, rest, hl, hns⟩ := h
  unfold fixCol
  split
  · rename_i e heq
    rw [hl] at heq
    exact Except.noConfusion heq
  · rename_i c heq
    rw [hl] at heq
    cases Except.ok.inj heq
    simp [seriesGet0, hns]

theorem headNonStr_of_frame {df df2 : Df} {n m : String} {post : Cell → Cell}
    (h : fixCol df n post = .ok df2) (hne : m ≠ n) (hm : headNonStr df m) :
    headNonStr df2 m := by
  obtain ⟨c0, rest, hl, hns⟩ := hm
  exact ⟨c0, rest, (fixCol_frame h hne).trans hl, hns⟩

theorem fixCol_allEmpty {df : Df} (hempty : ∀ p ∈ df, p.2 = ([] : List Cell))
    (n : String) (post : Cell → Cell) : fixCol df n post = .error .keyErr := by
  unfold fixCol
  split
  · rename_i e heq
    rw [lookupCol_error heq]
  · rename_i c heq
    obtain ⟨p, hp, hpc⟩ := lookupCol_ok_mem heq
    have hc : c = [] := by rw [← hpc]; exact hempty p hp
    subst hc
    rfl

/-- C4 (code behavior at the claim's input): for every table and every
mode other than "runs" / "heart_rates", `enforce_dtypes` prints a message
and returns Python `None` — it does NOT raise.  The claim (and the test's
`except ValueError`) expect an invalid-schema exception instead. -/
theorem enforce_dtypes_badmode_c4 (df : Df) (mode : String)
    (h1 : mode ≠ "runs") (h2 : mode ≠ "heart_rates") :
    enforce_dtypes df mode = .ok none := by
  unfold enforce_dtypes
  rw [if_neg h1, if_neg h2]

/-- Witness for C4 at the test's own input, mode "yeet". -/
theorem enforce_dtypes_badmode_c4_witness :
    enforce_dtypes [] "yeet" = .ok none :=
  enforce_dtypes_badmode_c4 [] "yeet" (by decide) (by decide)

/-- C9: on either valid schema tag, the normalizer is idempotent: a table
it has produced is a fixed point, because every date/time-bearing column
then starts with a typed (non-string) value and the element-0 dispatch
skips the conversion. -/
theorem enforce_dtypes_idempotent_c9 (df df2 : Df) (mode : String)
    (hmode : mode = "runs" ∨ mode = "heart_rates")
    (h : enforce_dtypes df mode = .ok (some df2)) :
    enforce_dtypes df2 mode = .ok (some df2) := by
  have hDS : ("Date" : String) ≠ "Start" := by decide
  have hDE : ("Date" : String) ≠ "End" := by decide
  have hSE : ("Start" : String) ≠ "End" := by decide
  have pD : ∀ c c2, toDatetimeCell c = .ok c2 → isStr (dtDate c2) = false :=
    fun c c2 hc => (toDatetimeCell_nonstr hc).1
  have pT : ∀ c c2, toDatetimeCell c = .ok c2 → isStr (dtTime c2) = false :=
    fun c c2 hc => (toDatetimeCell_nonstr hc).2.1
  have pI : ∀ c c2, toDatetimeCell c = .ok c2 → isStr c2 = false :=
    fun c c2 hc => (toDatetimeCell_nonstr hc).2.2
  rcases hmode with rfl | rfl
  · unfold enforce_dtypes at h
    rw [if_pos rfl] at h
    split at h
    · exact Except.noConfusion h
    · rename_i d1 h1
      split at h
      · exact Except.noConfusion h
      · rename_i d2 h2
        split at h
        · exact Except.noConfusion h
        · rename_i d3 h3
          cases Option.some.inj (Except.ok.inj h)
          have hDate1 : headNonStr d1 "Date" := fixCol_ok_headNonStr pD h1
          have hDate2 : headNonStr d2 "Date" := headNonStr_of_frame h2 hDS hDate1
          have hDate3 : headNonStr df2 "Date" := headNonStr_of_frame h3 hDE hDate2
          have hStart2 : headNonStr d2 "Start" := fixCol_ok_headNonStr pT h2
          have hStart3 : headNonStr df2 "Start" := headNonStr_of_frame h3 hSE hStart2
          have hEnd3 : headNonStr df2 "End" := fixCol_ok_headNonStr pT h3
          simp [enforce_dtypes, fixCol_noop dtDate hDate3,
            fixCol_noop dtTime hStart3, fixCol_noop dtTime hEnd3]
  · unfold enforce_dtypes at h
    rw [if_neg (by decide), if_pos rfl] at h
    split at h
    · exact Except.noConfusion h
    · rename_i d1 h1
      cases Option.some.inj (Except.ok.inj h)
      have hTime : headNonStr df2 "Time" := fixCol_ok_headNonStr pI h1
      simp [enforce_dtypes, fixCol_noop (fun c => c) hTime]

/-- Witness for C9: one normalization of a concrete textual table, then
the second application applied through the theorem. -/
theorem enforce_dtypes_idempotent_c9_witness :
    enforce_dtypes dfC9 "runs" = .ok (some dfC9n)
    ∧ enforce_dtypes dfC9n "runs" = .ok (some dfC9n) := by
  have h : enforce_dtypes dfC9 "runs" = .ok (some dfC9n) := by decide
  exact ⟨h, enforce_dtypes_idempotent_c9 dfC9 dfC9n "runs" (Or.inl rfl) h⟩

/-- C10: on a zero-row table (with either valid tag) the element-0
dispatch of `enforce_dtypes` raises a lookup error rather than returning
the table; and a column whose element 0 is already typed is left
unconverted even when later elements are still text. -/
theorem enforce_dtypes_index0_c10 :
    (∀ df : Df, (∀ p ∈ df, p.2 = ([] : List Cell)) →
      enforce_dtypes df "runs" = .error .keyErr
      ∧ enforce_dtypes df "heart_rates" = .error .keyErr)
    ∧ (∀ (df : Df) (c0 : Cell) (rest : List Cell),
        lookupCol df "Time" = .ok (c0 :: rest) → isStr c0 = false →
        enforce_dtypes df "heart_rates" = .ok (some df)) := by
  constructor
  · intro df hempty
    constructor
    · simp [enforce_dtypes, fixCol_allEmpty hempty "Date" dtDate]
    · simp [enforce_dtypes, fixCol_allEmpty hempty "Time" (fun c => c)]
  · intro df c0 rest hl hns
    have hT : headNonStr df "Time" := ⟨c0, rest, hl, hns⟩
    simp [enforce_dtypes, fixCol_noop (fun c => c) hT]

/-- Witness for C10: the empty-column table errors, and the mixed
typed-then-text `Time` column is returned untouched. -/
theorem enforce_dtypes_index0_c10_witness :
    enforce_dtypes dfC10a "runs" = .error .keyErr
    ∧ enforce_dtypes dfC10b "heart_rates" = .ok (some dfC10b) :=
  ⟨(enforce_dtypes_index0_c10.1 dfC10a (by decide)).1,
   enforce_dtypes_index0_c10.2 dfC10b (Cell.datetime ⟨⟨2021, 8, 9⟩, ⟨10, 0, 0⟩⟩)
     [Cell.str "2021-08-09 11:00:00"] (by decide) (by decide)⟩

/-- C1: a heart-rate sample with timestamp `t` is selected by the window
of a run row with date `D`, start `s` and end `e` exactly when the
calendar-date component of `t` equals `D` and its time-of-day component
lies strictly between `s` and `e` (a sample exactly at `s` or at `e` is
excluded by the strict comparisons). -/
theorem find_hr_selection_c1 (heart_rates : List HrSample) (w : RunWindow)
    (h : HrSample) (t : PyDateTime) (D : PyDate) (s e : PyTime)
    (hwd : w.date = some D) (hws : w.start = some s) (hwe : w.endt = some e)
    (hts : h.ts = some t) (hmem : h ∈ heart_rates) :
    h ∈ findHrSelection heart_rates w ↔
      (t.date = D ∧ timeLtB s t.tod = true ∧ timeLtB t.tod e = true) := by
  unfold findHrSelection
  rw [List.mem_filter]
  simp only [hmem, true_and, hrCond1, hrCond2, hrCond3, hwd, hws, hwe, hts,
    Bool.and_eq_true, decide_eq_true_eq]
  constructor
  · rintro ⟨⟨h1, h2⟩, h3⟩
    exact ⟨h1, h3, h2⟩
  · rintro ⟨h1, h3, h2⟩
    exact ⟨⟨h1, h2⟩, h3⟩

set_option maxRecDepth 20000 in
/-- Witness for C1 at the spec's example: window 10:00 - 11:00 with
samples at 09:59, 10:00, 10:30, 11:00, 11:01; the 10:30 sample is
selected and the boundary sample at 10:00 is not. -/
theorem find_hr_selection_c1_witness :
    sampAt ⟨10, 30, 0⟩ ∈ findHrSelection hrsC1 winC1
    ∧ ¬ sampAt ⟨10, 0, 0⟩ ∈ findHrSelection hrsC1 winC1 := by
  constructor
  · exact (find_hr_selection_c1 hrsC1 winC1 (sampAt ⟨10, 30, 0⟩) ⟨dW, ⟨10, 30, 0⟩⟩
      dW ⟨10, 0, 0⟩ ⟨11, 0, 0⟩ rfl rfl rfl rfl
      (by with_unfolding_all decide)).mpr (by decide)
  · intro hc
    have := (find_hr_selection_c1 hrsC1 winC1 (sampAt ⟨10, 0, 0⟩) ⟨dW, ⟨10, 0, 0⟩⟩
      dW ⟨10, 0, 0⟩ ⟨11, 0, 0⟩ rfl rfl rfl rfl
      (by with_unfolding_all decide)).mp hc
    exact absurd this.2.1 (by decide)

/-- C3: when the window selection is empty, each of the three statistic
modes returns the explicit NaN marker — not zero and not an exception. -/
theorem find_hr_empty_c3 (heart_rates : List HrSample) (w : RunWindow)
    (hsel : findHrSelection heart_rates w = []) :
    find_hr heart_rates w "max" = .ok (.stat none)
    ∧ find_hr heart_rates w "median" = .ok (.stat none)
    ∧ find_hr heart_rates w "mean" = .ok (.stat none) := by
  refine ⟨?_, ?_, ?_⟩ <;>
    simp [find_hr, hsel, seriesMax, seriesMedian, seriesMean, qMax, sortBy]

/-- Witness for C3: a window over an empty sample table selects nothing
and all three statistics are NaN. -/
theorem find_hr_empty_c3_witness :
    findHrSelection [] winC3 = []
    ∧ find_hr [] winC3 "max" = .ok (.stat none)
    ∧ find_hr [] winC3 "median" = .ok (.stat none)
    ∧ find_hr [] winC3 "mean" = .ok (.stat none) := by
  have h := find_hr_empty_c3 [] winC3 rfl
  exact ⟨rfl, h.1, h.2.1, h.2.2⟩

/-- C6: every row of the extracted runs table with distance `d > 0` and
duration `m > 0` carries `pace = m / d` (minutes per mile) and
`speed = 60 * d / m` (miles per hour). -/
theorem get_runs_pace_speed_c6 (xml : Xml) (heart_rates : List HrSample)
    (rows : List RunRow) (r : RunRow) (d m : ℚ)
    (hok : get_runs xml heart_rates false = .ok rows) (hr : r ∈ rows)
    (hd : r.distance = some d) (hm : r.duration = some m)
    (hd0 : 0 < d) (hm0 : 0 < m) :
    r.pace = some (m / d) ∧ r.speed = some (60 * d / m) := by
  simp only [get_runs] at hok
  split at hok
  · split at hok
    · exact Except.noConfusion hok
    · rename_i prepped hprep
      split at hok
      · exact Except.noConfusion hok
      · rename_i withHr hwith
        rw [if_neg (by decide)] at hok
        cases Except.ok.inj hok
        obtain ⟨x, hx, hfx⟩ := mapME_mem hwith hr
        unfold addHrStats at hfx
        split at hfx
        · exact Except.noConfusion hfx
        · rename_i mx hmx
          split at hfx
          · exact Except.noConfusion hfx
          · rename_i av hav
            cases Except.ok.inj hfx
            obtain ⟨y, hy, rfl⟩ := List.mem_map.mp hx
            have hyd : y.distance = some d := by simpa [addSpeedPace] using hd
            have hym : y.duration = some m := by simpa [addSpeedPace] using hm
            constructor
            · show optDiv y.duration y.distance = some (m / d)
              rw [hyd, hym]
              simp [optDiv, hd0.ne']
            · show optDiv (optScale 60 y.distance) y.duration = some (60 * d / m)
              rw [hyd, hym]
              simp [optDiv, optScale, hm0.ne']
  · exact Except.noConfusion hok

set_option maxRecDepth 40000 in
/-- Witness for C6: the workout with distance 5.0 mi and duration
45.0 min yields pace 9 min/mi and speed 60*5/45 = 6.667 mph (within
one thousandth). -/
theorem get_runs_pace_speed_c6_witness :
    get_runs xmlC6 [] false = .ok [rowC6]
    ∧ rowC6.pace = some (45 / 5) ∧ rowC6.speed = some (60 * 5 / 45)
    ∧ (45 : ℚ) / 5 = 9 ∧ |(60 : ℚ) * 5 / 45 - 6.667| < 1 / 1000 := by
  have hok : get_runs xmlC6 [] false = .ok [rowC6] := by with_unfolding_all decide
  have h := get_runs_pace_speed_c6 xmlC6 [] [rowC6] rowC6 5 45 hok
    (List.mem_singleton.mpr rfl) rfl rfl (by norm_num) (by norm_num)
  exact ⟨hok, h.1, h.2, by norm_num, by rw [abs_sub_lt_iff]; constructor <;> norm_num⟩

/-- C2: the session is FRESH exactly when the persisted marker exists and
parses to today's date; a FRESH start loads both tables from the persisted
cache and never touches the XML, while a start with a marker absent or
dated any other day is STALE: both tables are re-extracted from the XML
and persisted together with a marker holding `str(today)`. -/
theorem cache_manager_c2 (today : PyDate) (st : Storage) (xml : Xml) :
    (check_cache today st.marker = .ok true ↔
      ∃ s, st.marker = some s ∧ parseAsOf s = .ok today)
    ∧ ((st.marker = none ∨
        ∃ s d2, st.marker = some s ∧ parseAsOf s = .ok d2 ∧ d2 ≠ today) →
        check_cache today st.marker = .ok false)
    ∧ (check_cache today st.marker = .ok true →
        (∀ xml2, fp_init today st xml2 = fp_init today st xml)
        ∧ fp_init today st xml =
            (match load_csv st "heart_rates" with
             | .error e => .error e
             | .ok hro =>
               match load_csv st "runs" with
               | .error e => .error e
               | .ok ro => .ok (⟨hro, ro, true⟩, st)))
    ∧ (check_cache today st.marker = .ok false →
        fp_init today st xml =
          (match get_hrs xml false with
           | .error e => .error e
           | .ok hrTab =>
             match get_runs xml hrTab false with
             | .error e => .error e
             | .ok runTab =>
               .ok (⟨some (hrTableToDf hrTab), some (runTableToDf runTab), false⟩,
                    ⟨some (dateToString today),
                     some (serializeDf (runTableToDf runTab)),
                     some (serializeDf (hrTableToDf hrTab))⟩))) := by
  refine ⟨⟨?_, ?_⟩, ?_, ?_, ?_⟩
  · intro h
    cases hm : st.marker with
    | none => rw [hm] at h; simp [check_cache] at h
    | some s =>
      rw [hm] at h
      simp only [check_cache] at h
      split at h
      · exact Except.noConfusion h
      · rename_i d2 hp
        have hdec : decide (today = d2) = true := Except.ok.inj h
        have heq : today = d2 := of_decide_eq_true hdec
        subst heq
        exact ⟨s, rfl, hp⟩
  · rintro ⟨s, hm, hp⟩
    rw [hm]
    simp [check_cache, hp]
  · rintro (hm | ⟨s, d2, hm, hp, hne⟩)
    · simp [check_cache, hm]
    · rw [hm]
      simp [check_cache, hp, hne.symm]
  · intro hc
    constructor
    · intro xml2
      unfold fp_init
      rw [hc]
      rfl
    · unfold fp_init
      rw [hc]
      rfl
  · intro hc
    unfold fp_init
    rw [hc]
    rfl

set_option maxRecDepth 20000 in
/-- Witness for C2: with a marker dated exactly `dW`, the session is
FRESH, is independent of the XML, and both tables come from the persisted
csvs; with no marker the check yields STALE. -/
theorem cache_manager_c2_witness :
    check_cache dW stC2.marker = .ok true
    ∧ fp_init dW stC2 xmlC2a = fp_init dW stC2 xmlC2b
    ∧ fp_init dW stC2 xmlC2b = .ok (⟨some hrsDfW, some runsDfW, true⟩, stC2)
    ∧ check_cache dW (none : Option String) = .ok false := by
  have hc : check_cache dW stC2.marker = .ok true := by decide
  have h3 := (cache_manager_c2 dW stC2 xmlC2b).2.2.1 hc
  refine ⟨hc, h3.1 xmlC2a, h3.2.trans (by decide), ?_⟩
  exact (cache_manager_c2 dW ⟨none, none, none⟩ xmlC2a).2.1 (Or.inl rfl)
